import Mathlib

/-!
# Verification of the Gmail IMAP watcher (`gmail_imap.py`, `database.py`)

Shallow embedding of the incremental mailbox watcher of this repository:
the persisted JSON state (`_save_state` / `_get_state`), the connection
baseline logic (`connect`), the fetch step
(`get_new_emails_since_last_notified`), the dispatch part of
`monitor_loop` together with its error/backoff handling, and the dedup
ledger of `database.py` (`create_gmail_tracking_table`,
`is_email_already_sent`, `mark_email_as_sent`).

External effects are made explicit inputs: the IMAP server's reply to a
UID search is a list of UIDs, and the combined `uid fetch` + `parse_email_data`
outcome for a UID is an `Option ParsedEmail` supplied by the environment
(`none` models a fetch failure or a parse failure, both of which the
Python code skips with a logged error).  The Telegram callback is modelled
by a success predicate on the dispatched UID, since `monitor_loop` only
distinguishes "callback returned" from "callback raised".
-/

namespace GmailWatcher

/-- The JSON state file `gmail_state.json`: a dictionary that may hold the
keys `start_uid` and `last_notified_uid`.  An absent key is `none`. -/
structure GmailState where
  start_uid : Option Nat
  last_notified_uid : Option Nat
  deriving Repr, DecidableEq

/-- The state of an empty / missing state file (`_get_state` returns `{}`). -/
def GmailState.empty : GmailState := ⟨none, none⟩

/-- `_save_state(start_uid=…, last_notified_uid=…)`: re-reads the stored
state and overwrites only the keys whose argument is not `None`. -/
def save_state (st : GmailState) (start_uid last_notified_uid : Option Nat) :
    GmailState :=
  let st1 : GmailState :=
    match start_uid with
    | some u => { st with start_uid := some u }
    | none => st
  match last_notified_uid with
  | some u => { st1 with last_notified_uid := some u }
  | none => st1

/-- The fields of the dictionary returned by `parse_email_data` (without
the `uid` key, which `get_new_emails_since_last_notified` adds later). -/
structure ParsedEmail where
  sender : String
  sender_email : String
  subject : String
  preview : String
  date : String
  has_attachments : Bool
  deriving Repr, DecidableEq

/-- An email record as handed to the monitor callback: a parsed email
plus the `uid` key set by `get_new_emails_since_last_notified`. -/
structure EmailData where
  uid : Nat
  data : ParsedEmail
  deriving Repr, DecidableEq

/-- In-memory watcher fields of `GmailIMAPWatcher` relevant to UID
tracking, together with the persisted state file. -/
structure Watcher where
  start_uid : Option Nat
  last_notified_uid : Option Nat
  stateFile : GmailState
  deriving Repr, DecidableEq

/-- The environment of one fetch step: the UID list the server returns
for the search `UID {last_notified_uid+1}:*`, and the combined
fetch-and-parse outcome per UID (`none` = fetch error, malformed fetch
response, or `parse_email_data` returning `None`). -/
structure FetchEnv where
  searchResult : List Nat
  fetchParse : Nat → Option ParsedEmail

/-- Events of one monitor cycle, used to state ordering properties:
persisting the cursor to the state file, handing a record to the
callback, and the callback returning or raising. -/
inductive Event where
  | persist (uid : Nat)
  | dispatch (uid : Nat)
  | callbackOk (uid : Nat)
  | callbackErr (uid : Nat)
  deriving Repr, DecidableEq, BEq

/-- Python's `max` over a nonempty list of UIDs (`max(email['uid'] for …)`),
written as a fold from the first element. -/
def listMax (a : Nat) (l : List Nat) : Nat := l.foldl Nat.max a

/-- The per-UID body of the loop in `get_new_emails_since_last_notified`:
skip the UID if it is `≤ start_uid` (the baseline filter), otherwise
fetch and parse it; any failure is logged and skipped. -/
def processUid (start_uid : Nat) (env : FetchEnv) (uid : Nat) :
    Option EmailData :=
  if uid ≤ start_uid then none
  else (env.fetchParse uid).map (fun p => ⟨uid, p⟩)

/-- Result of one call to `get_new_emails_since_last_notified`: the
updated watcher, the returned email list, and the persist events that
occurred during the call. -/
structure FetchResult where
  watcher : Watcher
  emails : List EmailData
  events : List Event
  deriving Repr

/-- The tail of `get_new_emails_since_last_notified` applied to the
collected list: `if new_emails:` set `last_notified_uid` to the maximum
collected UID and persist it via `_save_state`, then return the list. -/
def buildResult (w : Watcher) : List EmailData → FetchResult
  | [] => ⟨w, [], []⟩
  | e :: rest =>
    let latest := listMax e.uid (rest.map EmailData.uid)
    ⟨{ w with
        last_notified_uid := some latest
        stateFile := save_state w.stateFile none (some latest) },
      e :: rest, [Event.persist latest]⟩

/-- `get_new_emails_since_last_notified`: guard on a present cursor,
collect the server's UIDs that pass the baseline filter and parse, and —
if any were collected — set `last_notified_uid` to their maximum and
persist it via `_save_state` before returning the list.
A `None` `start_uid` makes the comparison `uid <= self.start_uid` raise
inside the per-UID `try`, so every UID is skipped and `[]` is returned. -/
def get_new_emails (w : Watcher) (env : FetchEnv) : FetchResult :=
  match w.last_notified_uid, w.start_uid with
  | some _, some s => buildResult w (env.searchResult.filterMap (processUid s env))
  | _, _ => ⟨w, [], []⟩

/-- `connect`: select the inbox, read the full UID list; if it is
nonempty take its last element as `current_max_uid`, set and persist
`start_uid` on first run, and load `last_notified_uid` from the state
file with `start_uid` as default. -/
def connect (w : Watcher) (mailboxUids : List Nat) : Watcher :=
  match mailboxUids.getLast? with
  | none => w
  | some current_max =>
    let w1 : Watcher :=
      match w.start_uid with
      | none =>
        { w with
          start_uid := some current_max
          stateFile := save_state w.stateFile (some current_max) none }
      | some _ => w
    let loaded : Option Nat :=
      match w1.stateFile.last_notified_uid with
      | some v => some v
      | none => w1.start_uid
    { w1 with last_notified_uid := loaded }

/-- A watcher freshly constructed by `GmailIMAPWatcher.__init__` running
`monitor_loop` with a given state file: both UID fields are loaded from
the file (absent keys give `None`). -/
def loadWatcher (st : GmailState) : Watcher :=
  ⟨st.start_uid, st.last_notified_uid, st⟩

/-- The dispatch part of `monitor_loop`: each returned email is handed to
`callback_func`; an exception from the callback is caught and logged and
the loop proceeds to the next email. -/
def dispatchAll (cb : Nat → Bool) : List EmailData → List Event
  | [] => []
  | e :: rest =>
    Event.dispatch e.uid ::
      (if cb e.uid then Event.callbackOk e.uid else Event.callbackErr e.uid) ::
      dispatchAll cb rest

/-- One successful iteration of the `while` body of `monitor_loop`:
fetch (which may persist the cursor), then dispatch each email. -/
def cycle (w : Watcher) (env : FetchEnv) (cb : Nat → Bool) :
    Watcher × List Event :=
  let r := get_new_emails w env
  (r.watcher, r.events ++ dispatchAll cb r.emails)

/-- The UIDs `monitor_loop` hands to the callback in one cycle. -/
def monitorDispatches (w : Watcher) (env : FetchEnv) : List Nat :=
  (get_new_emails w env).emails.map EmailData.uid

/-- The retry wait computed in the `except` branch of `monitor_loop`:
`wait_time = min(30, 5 * consecutive_errors)`. -/
def waitTime (consecutive_errors : Nat) : Nat := min 30 (5 * consecutive_errors)

/-- Outcome of one iteration of the `monitor_loop` `try` block: it either
completes (resetting the error counter) or raises. -/
inductive CycleOutcome where
  | ok
  | err
  deriving Repr, DecidableEq

/-- The sequence of backoff waits `monitor_loop` performs, given the
error counter and the outcomes of successive iterations: a successful
iteration resets the counter, an error increments it and — only while
the counter is still below `max_errors = 5` — sleeps `waitTime`; once
the counter reaches 5 the `while` guard fails and the loop stops without
a further wait. -/
def runWaits : Nat → List CycleOutcome → List Nat
  | _, [] => []
  | _, CycleOutcome.ok :: rest => runWaits 0 rest
  | consecutive, CycleOutcome.err :: rest =>
    let k := consecutive + 1
    if k < 5 then waitTime k :: runWaits k rest
    else []

end GmailWatcher

namespace GmailDB

/-- A row of the `gmail_tracking` table.  The table declares
`email_id TEXT PRIMARY KEY`; the timestamp defaults are irrelevant to
the claims and are omitted. -/
structure TrackRow where
  email_id : String
  sender_email : String
  subject : String
  user_id : String
  deriving Repr, DecidableEq

/-- The `gmail_tracking` table as an insertion-ordered list of rows. -/
def Table := List TrackRow

/-- `is_email_already_sent`: `SELECT 1 FROM gmail_tracking WHERE
email_id = ? AND user_id = ?` is nonempty. -/
def is_email_already_sent (db : List TrackRow) (email_id user_id : String) :
    Bool :=
  db.any (fun r => r.email_id == email_id && r.user_id == user_id)

/-- `mark_email_as_sent`: `INSERT … ON CONFLICT (email_id) DO NOTHING`.
The conflict target is the primary key `email_id` alone, so the insert
is dropped exactly when some row already carries this `email_id`. -/
def mark_email_as_sent (db : List TrackRow)
    (email_id sender_email subject user_id : String) : List TrackRow :=
  if db.any (fun r => r.email_id == email_id) then db
  else db ++ [⟨email_id, sender_email, subject, user_id⟩]

end GmailDB

open GmailWatcher GmailDB

section Helpers

/-- A record produced by the per-UID body carries the UID it was built
from, and that UID passed the baseline filter. -/
theorem processUid_eq_some {s : Nat} {env : FetchEnv} {u : Nat} {e : EmailData}
    (h : processUid s env u = some e) : e.uid = u ∧ s < u := by
  unfold processUid at h
  split at h
  · exact absurd h (by simp)
  · rcases Option.map_eq_some'.mp h with ⟨p, _, hpe⟩
    exact ⟨by rw [← hpe], by omega⟩

/-- The returned email list of `buildResult` is its argument. -/
theorem buildResult_emails (w : Watcher) (l : List EmailData) :
    (buildResult w l).emails = l := by
  cases l <;> rfl

/-- The event list of `buildResult` is empty or one persist event. -/
theorem buildResult_events (w : Watcher) (l : List EmailData) :
    (buildResult w l).events = [] ∨
    ∃ u, (buildResult w l).events = [Event.persist u] := by
  cases l with
  | nil => exact Or.inl rfl
  | cons e rest => exact Or.inr ⟨_, rfl⟩

/-- With both UID fields present, a fetch step is `buildResult` of the
filter-map of the server's search reply through the per-UID body. -/
theorem get_new_emails_eq_buildResult {w : Watcher} {env : FetchEnv} {c s : Nat}
    (hc : w.last_notified_uid = some c) (hs : w.start_uid = some s) :
    get_new_emails w env =
      buildResult w (env.searchResult.filterMap (processUid s env)) := by
  unfold get_new_emails
  rw [hc, hs]

/-- With both UID fields present, the returned email list is exactly the
filter-map of the server's search reply through the per-UID body. -/
theorem get_new_emails_emails {w : Watcher} {env : FetchEnv} {c s : Nat}
    (hc : w.last_notified_uid = some c) (hs : w.start_uid = some s) :
    (get_new_emails w env).emails =
      env.searchResult.filterMap (processUid s env) := by
  rw [get_new_emails_eq_buildResult hc hs, buildResult_emails]

/-- The returned email list is empty unless both UID fields are present. -/
theorem get_new_emails_emails_none {w : Watcher} {env : FetchEnv}
    (h : w.last_notified_uid = none ∨ w.start_uid = none) :
    (get_new_emails w env).emails = [] := by
  unfold get_new_emails
  rcases h with h | h
  · rw [h]
  · rw [h]
    cases w.last_notified_uid <;> rfl

end Helpers

/-- C10: `_save_state` merges into the stored state: saving only
`last_notified_uid` preserves the stored `start_uid`, and saving only
`start_uid` preserves the stored `last_notified_uid`. -/
theorem save_state_frame (st : GmailState) (u v : Nat) :
    (save_state st none (some v)).start_uid = st.start_uid ∧
    (save_state st (some u) none).last_notified_uid = st.last_notified_uid :=
  ⟨rfl, rfl⟩

/-- The ledger after marking the same email id for two different users. -/
def dbTwoUsers : List TrackRow :=
  mark_email_as_sent
    (mark_email_as_sent [] "msg-1" "a@x.com" "hello" "user-1")
    "msg-1" "a@x.com" "hello" "user-2"

/-- C6 counterexample: the `gmail_tracking` primary key is `email_id`
alone, so recording the same message for a second consumer is silently
dropped: after marking `("msg-1","user-1")` and then `("msg-1","user-2")`
the table has a single row and the membership check for
`("msg-1","user-2")` is still false. -/
theorem mark_email_composite_key_fails :
    dbTwoUsers.length = 1 ∧
    is_email_already_sent dbTwoUsers "msg-1" "user-2" = false := by
  constructor <;> rfl

/-- C6 amended: `mark_email_as_sent` is insert-if-absent on `email_id`
alone: a repeat call for the same `email_id` — with the same or any other
consumer — is a no-op, and a first call for an absent `email_id` leaves
exactly one row for that `(email_id, user_id)` pair. -/
theorem mark_email_as_sent_idempotent (db : List TrackRow)
    (e s subj u s' subj' u' : String) :
    mark_email_as_sent (mark_email_as_sent db e s subj u) e s' subj' u' =
      mark_email_as_sent db e s subj u ∧
    (db.any (fun r => r.email_id == e) = false →
      ((mark_email_as_sent db e s subj u).filter
          (fun r => r.email_id == e && r.user_id == u)).length = 1) := by
  constructor
  · unfold mark_email_as_sent
    cases h : db.any (fun r => r.email_id == e) with
    | true => simp [h]
    | false => simp [h, List.any_append]
  · intro h
    unfold mark_email_as_sent
    rw [h]
    simp only [Bool.false_eq_true, if_false, List.filter_append]
    have hdb : db.filter (fun r => r.email_id == e && r.user_id == u) = [] := by
      rw [List.filter_eq_nil_iff]
      intro r hr
      have := (List.any_eq_false.mp h) r hr
      simp only [Bool.and_eq_true, beq_iff_eq]
      rintro ⟨h1, -⟩
      exact this (by simp [h1])
    rw [hdb]
    simp

/-- C6 amended, witness at a concrete input. -/
theorem mark_email_as_sent_idempotent_witness :
    mark_email_as_sent (mark_email_as_sent [] "m" "a" "s" "u") "m" "a2" "s2" "u2" =
      mark_email_as_sent [] "m" "a" "s" "u" ∧
    (([] : List TrackRow).any (fun r => r.email_id == "m") = false →
      ((mark_email_as_sent [] "m" "a" "s" "u").filter
          (fun r => r.email_id == "m" && r.user_id == "u")).length = 1) :=
  ⟨(mark_email_as_sent_idempotent [] "m" "a" "s" "u" "a2" "s2" "u2").1,
   fun h => (mark_email_as_sent_idempotent [] "m" "a" "s" "u" "a2" "s2" "u2").2 h⟩

/-- C5 counterexample: five consecutive errors make `monitor_loop` wait
`min(30, 5·k)` seconds after the k-th error for k = 1..4 and stop on the
5th without waiting, a total of 5+10+15+20 = 50 seconds — not the 60
seconds of the claimed exponential schedule, whose very first delay
min(30, 2·2¹) = 4 already differs from the code's `waitTime 1 = 5`. -/
theorem backoff_not_exponential :
    (runWaits 0 (List.replicate 5 CycleOutcome.err)).sum = 50 ∧
    ¬ (runWaits 0 (List.replicate 5 CycleOutcome.err)).sum = 60 ∧
    ¬ waitTime 1 = min 30 (2 * 2 ^ 1) := by
  decide

/-- C5 amended: the retry delay is linear with a cap, `min(30, 5·k)`
seconds on the k-th consecutive error for k < 5; once the counter
reaches `max_errors = 5` the loop stops without a further wait, so any
run of at least 5 consecutive errors incurs exactly the waits
5, 10, 15, 20 — 50 seconds in total. -/
theorem backoff_linear_capped (m : Nat) :
    runWaits 0 (List.replicate (m + 5) CycleOutcome.err) =
      [waitTime 1, waitTime 2, waitTime 3, waitTime 4] ∧
    (runWaits 0 (List.replicate (m + 5) CycleOutcome.err)).sum = 50 := by
  have h5 : List.replicate (m + 5) CycleOutcome.err =
      CycleOutcome.err :: CycleOutcome.err :: CycleOutcome.err ::
        CycleOutcome.err :: CycleOutcome.err :: List.replicate m CycleOutcome.err := by
    simp [List.replicate_succ]
  rw [h5]
  simp [runWaits, waitTime]

/-- A parsed email used by concrete scenarios. -/
def sampleEmail : ParsedEmail :=
  ⟨"Alice <alice@example.com>", "alice@example.com", "hi", "preview", "today", false⟩

/-- Watcher with baseline 10 and cursor 10, cursor not yet persisted. -/
def watcherAt10 : Watcher := ⟨some 10, some 10, ⟨some 10, none⟩⟩

/-- A fetch where the single new message (UID 11) fails to parse. -/
def envUnparseable : FetchEnv := ⟨[11], fun _ => none⟩

/-- C7 counterexample: the cursor is advanced only over the maximum of the
*successfully parsed* messages, so a batch whose only message (UID 11)
fails to parse leaves `last_notified_uid` at 10 — the cursor does not
advance past the unparseable message and it will be re-fetched forever. -/
theorem unparseable_blocks_cursor :
    (get_new_emails watcherAt10 envUnparseable).watcher.last_notified_uid = some 10 ∧
    (get_new_emails watcherAt10 envUnparseable).watcher.stateFile.last_notified_uid = none ∧
    ¬ (11 : Nat) ≤ 10 := by
  refine ⟨rfl, rfl, by omega⟩

/-- C7 amended: messages that fail to parse are skipped while the rest of
the batch is still returned for dispatch, and the cursor advances to the
highest *successfully parsed* identifier.  In the spec's scenario — three
messages `u1 < u2 < u3`, the middle one unparseable — that is `u3`, past
all three; but the cursor passes an unparseable message only when a
higher-identifier message in the batch parses. -/
theorem parse_failure_skips_message (s c u1 u2 u3 : Nat) (p1 p3 : ParsedEmail)
    (st : GmailState) (pf : Nat → Option ParsedEmail)
    (h1 : s < u1) (h12 : u1 < u2) (h23 : u2 < u3)
    (hp1 : pf u1 = some p1) (hp2 : pf u2 = none) (hp3 : pf u3 = some p3) :
    (get_new_emails ⟨some s, some c, st⟩ ⟨[u1, u2, u3], pf⟩).emails =
      [⟨u1, p1⟩, ⟨u3, p3⟩] ∧
    (get_new_emails ⟨some s, some c, st⟩
        ⟨[u1, u2, u3], pf⟩).watcher.stateFile.last_notified_uid = some u3 := by
  have hs1 : ¬ u1 ≤ s := by omega
  have hs2 : ¬ u2 ≤ s := by omega
  have hs3 : ¬ u3 ≤ s := by omega
  have hfm : ([u1, u2, u3].filterMap (processUid s ⟨[u1, u2, u3], pf⟩)) =
      [⟨u1, p1⟩, ⟨u3, p3⟩] := by
    simp [List.filterMap, processUid, hs1, hs2, hs3, hp1, hp2, hp3]
  have hmax : listMax u1 [u3] = u3 := by
    simp only [listMax, List.foldl]
    exact Nat.max_eq_right (by omega)
  have hge : get_new_emails ⟨some s, some c, st⟩ ⟨[u1, u2, u3], pf⟩ =
      buildResult ⟨some s, some c, st⟩ [⟨u1, p1⟩, ⟨u3, p3⟩] := by
    rw [get_new_emails_eq_buildResult rfl rfl]
    exact congrArg _ hfm
  rw [hge]
  refine ⟨rfl, ?_⟩
  show some (listMax u1 [u3]) = some u3
  rw [hmax]

/-- C7 amended, witness: baseline 10, cursor 10, batch 11/12/13 with 12
unparseable. -/
theorem parse_failure_skips_message_witness :
    (get_new_emails ⟨some 10, some 10, ⟨some 10, none⟩⟩
        ⟨[11, 12, 13], fun u => if u = 12 then none else some sampleEmail⟩).emails =
      [⟨11, sampleEmail⟩, ⟨13, sampleEmail⟩] ∧
    (get_new_emails ⟨some 10, some 10, ⟨some 10, none⟩⟩
        ⟨[11, 12, 13], fun u => if u = 12 then none else some sampleEmail⟩).watcher.stateFile.last_notified_uid =
      some 13 :=
  parse_failure_skips_message 10 10 11 12 13 sampleEmail sampleEmail
    ⟨some 10, none⟩ _ (by omega) (by omega) (by omega) rfl rfl rfl

/-- A fetch in which the single new message (UID 11) parses fine. -/
def envOneNew : FetchEnv := ⟨[11], fun u => if u = 11 then some sampleEmail else none⟩

/-- C1 counterexample: with one new message (UID 11) and a succeeding
callback, the cycle's event trace is `persist 11` *first*, then the
dispatch and the callback return: the cursor covering UID 11 is persisted
by the fetch step before the notification callback for UID 11 has run. -/
theorem persist_precedes_dispatch :
    (cycle watcherAt10 envOneNew (fun _ => true)).2 =
      [Event.persist 11, Event.dispatch 11, Event.callbackOk 11] ∧
    List.indexOf (Event.persist 11) (cycle watcherAt10 envOneNew (fun _ => true)).2 <
      List.indexOf (Event.callbackOk 11) (cycle watcherAt10 envOneNew (fun _ => true)).2 := by
  refine ⟨rfl, ?_⟩
  show (0 : Nat) < 2
  omega

/-- Whether an event is a dispatch to the callback. -/
def isDispatchEvent : Event → Bool
  | Event.dispatch _ => true
  | _ => false

/-- Whether an event persists the cursor. -/
def isPersistEvent : Event → Bool
  | Event.persist _ => true
  | _ => false

/-- The dispatch phase emits no persist event. -/
theorem dispatchAll_no_persist (cb : Nat → Bool) (l : List EmailData) :
    ∀ e ∈ dispatchAll cb l, isPersistEvent e = false := by
  induction l with
  | nil => intro e he; simp [dispatchAll] at he
  | cons x xs ih =>
    intro e he
    simp only [dispatchAll, List.mem_cons] at he
    rcases he with rfl | rfl | he
    · rfl
    · cases h : cb x.uid <;> simp [h, isPersistEvent]
    · exact ih e he

/-- The event list of a fetch step is empty or a single persist event. -/
theorem get_new_emails_events_shape (w : Watcher) (env : FetchEnv) :
    (get_new_emails w env).events = [] ∨
    ∃ u, (get_new_emails w env).events = [Event.persist u] := by
  cases hl : w.last_notified_uid with
  | none =>
    left
    unfold get_new_emails
    rw [hl]
  | some c =>
    cases hs : w.start_uid with
    | none =>
      left
      unfold get_new_emails
      rw [hl, hs]
    | some s =>
      rw [get_new_emails_eq_buildResult hl hs]
      exact buildResult_events w _

/-- The fetch phase emits no dispatch event. -/
theorem get_new_emails_no_dispatch (w : Watcher) (env : FetchEnv) :
    ∀ e ∈ (get_new_emails w env).events, isDispatchEvent e = false := by
  intro e he
  rcases get_new_emails_events_shape w env with h | ⟨u, h⟩
  · rw [h] at he
    simp at he
  · rw [h] at he
    simp only [List.mem_singleton] at he
    subst he
    rfl

/-- C1 amended: the cursor is persisted by the fetch step, *before* any
record of the batch is dispatched: every cycle's event trace splits into
a prefix with no dispatch events (the fetch, which contains the persist)
followed by a suffix with no persist events (the dispatch phase).  A
crash between the persist and a callback therefore loses the message
rather than redelivering it. -/
theorem cycle_persist_before_dispatch (w : Watcher) (env : FetchEnv) (cb : Nat → Bool) :
    ∃ A B, (cycle w env cb).2 = A ++ B ∧
      (∀ e ∈ A, isDispatchEvent e = false) ∧
      (∀ e ∈ B, isPersistEvent e = false) :=
  ⟨(get_new_emails w env).events, dispatchAll cb (get_new_emails w env).emails,
    rfl, get_new_emails_no_dispatch w env, dispatchAll_no_persist cb _⟩

/-- A fetch with two new messages, UIDs 11 and 12, both parseable. -/
def envTwoNew : FetchEnv :=
  ⟨[11, 12], fun u => if u = 11 ∨ u = 12 then some sampleEmail else none⟩

/-- The watcher state after a cycle over `envTwoNew` whose callbacks all
raise. -/
def watcherAfterFailedCycle : Watcher :=
  (cycle watcherAt10 envTwoNew (fun _ => false)).1

/-- C8 counterexample: when the callbacks for UIDs 11 and 12 both raise,
the errors are caught (both messages are still dispatched and the trace
records the failures) — but the cursor was already persisted at 12 by the
fetch step, so a following cycle whose server reply honours the search
criterion `UID 13:*` (here: no new mail) dispatches nothing: the failed
messages are not retried on the next cycle; they are lost. -/
theorem failed_callback_not_retried :
    (cycle watcherAt10 envTwoNew (fun _ => false)).2 =
      [Event.persist 12, Event.dispatch 11, Event.callbackErr 11,
       Event.dispatch 12, Event.callbackErr 12] ∧
    watcherAfterFailedCycle.last_notified_uid = some 12 ∧
    watcherAfterFailedCycle.stateFile.last_notified_uid = some 12 ∧
    monitorDispatches watcherAfterFailedCycle ⟨[], fun _ => none⟩ = [] := by
  exact ⟨rfl, rfl, rfl, rfl⟩

/-- Every email of a batch gives rise to a dispatch event, whatever the
callback outcomes are. -/
theorem dispatchAll_mem_dispatch (cb : Nat → Bool) (l : List EmailData) :
    ∀ e ∈ l, Event.dispatch e.uid ∈ dispatchAll cb l := by
  induction l with
  | nil => intro e he; simp at he
  | cons x xs ih =>
    intro e he
    rcases List.mem_cons.mp he with rfl | he
    · exact List.mem_cons_self _ _
    · exact List.mem_cons_of_mem _ (List.mem_cons_of_mem _ (ih e he))

/-- C8 amended: a callback exception is caught and logged without halting
the loop — every fetched record is dispatched no matter which callbacks
fail — but the watcher state (cursor and persisted state file) after the
cycle is independent of the callback outcomes, so the failed message is
not re-fetched once the cursor has passed it. -/
theorem callback_failure_is_final (w : Watcher) (env : FetchEnv) (cb cb' : Nat → Bool) :
    (cycle w env cb).1 = (cycle w env cb').1 ∧
    ∀ e ∈ (get_new_emails w env).emails,
      Event.dispatch e.uid ∈ (cycle w env cb).2 :=
  ⟨rfl, fun e he =>
    List.mem_append_right _ (dispatchAll_mem_dispatch cb _ e he)⟩

/-- The UIDs of a fetched batch form a sublist of the server's reply. -/
theorem fetch_uids_sublist (s : Nat) (env : FetchEnv) (l : List Nat) :
    List.Sublist ((l.filterMap (processUid s env)).map EmailData.uid) l := by
  induction l with
  | nil => simp
  | cons u rest ih =>
    cases hpu : processUid s env u with
    | none =>
      simp only [List.filterMap_cons, hpu]
      exact ih.cons u
    | some e =>
      simp only [List.filterMap_cons, hpu, List.map_cons]
      rw [(processUid_eq_some hpu).1]
      exact ih.cons₂ u

/-- Watcher whose cursor (102) is above its baseline (100). -/
def watcherAt102 : Watcher := ⟨some 100, some 102, ⟨some 100, some 102⟩⟩

/-- A server reply whose UIDs arrive out of order. -/
def outOfOrderEnv : FetchEnv := ⟨[105, 103, 104], fun _ => some sampleEmail⟩

/-- C2 counterexample: the fetch never reorders the server's reply — with
cursor 102 and the reply `[105, 103, 104]` the returned records carry
UIDs `105, 103, 104` in that order, which is not strictly ascending. -/
theorem fetch_not_sorted :
    (get_new_emails watcherAt102 outOfOrderEnv).emails.map EmailData.uid =
      [105, 103, 104] ∧
    ¬ List.Chain' (· < ·)
      ((get_new_emails watcherAt102 outOfOrderEnv).emails.map EmailData.uid) := by
  refine ⟨rfl, ?_⟩
  have h : (get_new_emails watcherAt102 outOfOrderEnv).emails.map EmailData.uid =
      [105, 103, 104] := rfl
  rw [h]
  intro hch
  rw [List.chain'_cons] at hch
  exact absurd hch.1 (by decide)

/-- C2 amended: the fetch keeps the server's reply order, dropping only
UIDs `≤ start_uid` and unparseable messages; so the returned records are
strictly ascending with identifiers above the cursor exactly when the
server's reply itself is strictly ascending and honours the search
criterion `UID cursor+1:*` — the code performs no sorting and no local
`> cursor` filter of its own. -/
theorem fetch_order_follows_server (w : Watcher) (env : FetchEnv) (c s : Nat)
    (hc : w.last_notified_uid = some c) (hs : w.start_uid = some s)
    (hasc : List.Chain' (· < ·) env.searchResult)
    (hgt : ∀ u ∈ env.searchResult, c < u) :
    List.Chain' (· < ·) ((get_new_emails w env).emails.map EmailData.uid) ∧
    ∀ u ∈ (get_new_emails w env).emails.map EmailData.uid, c < u := by
  rw [get_new_emails_emails hc hs]
  have hsub := fetch_uids_sublist s env env.searchResult
  exact ⟨hasc.sublist hsub, fun u hu => hgt u (hsub.subset hu)⟩

/-- An in-order server reply above cursor 102. -/
def ascendingEnv : FetchEnv := ⟨[103, 104, 105], fun _ => some sampleEmail⟩

/-- C2 amended, witness: the ascending reply `[103, 104, 105]` above
cursor 102 comes back ascending and above the cursor. -/
theorem fetch_order_follows_server_witness :
    List.Chain' (· < ·)
      ((get_new_emails watcherAt102 ascendingEnv).emails.map EmailData.uid) ∧
    ∀ u ∈ (get_new_emails watcherAt102 ascendingEnv).emails.map EmailData.uid,
      102 < u :=
  fetch_order_follows_server watcherAt102 ascendingEnv 102 100 rfl rfl
    (by
      rw [show ascendingEnv.searchResult = [103, 104, 105] from rfl,
        List.chain'_cons, List.chain'_cons]
      exact ⟨by decide, by decide, List.chain'_singleton _⟩)
    (by
      rw [show ascendingEnv.searchResult = [103, 104, 105] from rfl]
      decide)

/-- A dedup ledger already containing the row for message "uid-14". -/
def ledgerWith14 : List TrackRow := [⟨"uid-14", "alice@example.com", "hi", "user-1"⟩]

/-- Watcher restarted from a persisted cursor of 13 (baseline 10). -/
def watcherAt13 : Watcher := ⟨some 10, some 13, ⟨some 10, some 13⟩⟩

/-- The restart fetch returning message 14 again. -/
def envReturning14 : FetchEnv := ⟨[14], fun u => if u = 14 then some sampleEmail else none⟩

/-- C3 counterexample: after a restart with persisted cursor 13, even
though the ledger records message 14 as already sent to the consumer,
`monitor_loop` hands UID 14 to the callback again — no code on the
monitoring path consults `is_email_already_sent`. -/
theorem ledger_not_consulted :
    is_email_already_sent ledgerWith14 "uid-14" "user-1" = true ∧
    monitorDispatches watcherAt13 envReturning14 = [14] :=
  ⟨rfl, rfl⟩

/-- C3 amended: the monitoring loop dispatches every fetched record that
passes the baseline filter and parses, regardless of the dedup ledger's
contents — the ledger membership check exists only on the manual
check-email path, so on restart with a stale cursor a ledger-recorded
message is delivered to the callback again. -/
theorem monitor_redispatches_ledgered (w : Watcher) (env : FetchEnv)
    (db : List TrackRow) (eid user : String) (c s u : Nat) (p : ParsedEmail)
    (hc : w.last_notified_uid = some c) (hs : w.start_uid = some s)
    (hmem : u ∈ env.searchResult) (hu : s < u)
    (hp : env.fetchParse u = some p)
    (hled : is_email_already_sent db eid user = true) :
    u ∈ monitorDispatches w env := by
  unfold monitorDispatches
  rw [get_new_emails_emails hc hs]
  have hpu : processUid s env u = some ⟨u, p⟩ := by
    unfold processUid
    rw [if_neg (by omega), hp]
    rfl
  have hin : (⟨u, p⟩ : EmailData) ∈ env.searchResult.filterMap (processUid s env) :=
    List.mem_filterMap.mpr ⟨u, hmem, hpu⟩
  exact List.mem_map.mpr ⟨⟨u, p⟩, hin, rfl⟩

/-- C3 amended, witness: the concrete restart state above. -/
theorem monitor_redispatches_ledgered_witness :
    (14 : Nat) ∈ monitorDispatches watcherAt13 envReturning14 :=
  monitor_redispatches_ledgered watcherAt13 envReturning14 ledgerWith14
    "uid-14" "user-1" 13 10 14 sampleEmail rfl rfl (by decide) (by omega) rfl rfl

/-- Records dispatched in a cycle have UIDs above the baseline. -/
theorem monitorDispatches_gt_start (w : Watcher) (env : FetchEnv) (s : Nat)
    (hs : w.start_uid = some s) : ∀ u ∈ monitorDispatches w env, s < u := by
  intro u hu
  unfold monitorDispatches at hu
  cases hl : w.last_notified_uid with
  | none =>
    rw [get_new_emails_emails_none (Or.inl hl)] at hu
    simp at hu
  | some c =>
    rw [get_new_emails_emails hl hs] at hu
    rcases List.mem_map.mp hu with ⟨e, he, rfl⟩
    rcases List.mem_filterMap.mp he with ⟨v, _, hpv⟩
    obtain ⟨h1, h2⟩ := processUid_eq_some hpv
    rw [h1]
    exact h2

/-- When every UID of the reply is above the baseline and parses, the
fetch collects the whole reply in order. -/
theorem filterMap_processUid_all (s : Nat) (env : FetchEnv) (l : List Nat)
    (pe : Nat → ParsedEmail)
    (hgt : ∀ u ∈ l, s < u) (hp : ∀ u ∈ l, env.fetchParse u = some (pe u)) :
    l.filterMap (processUid s env) = l.map (fun u => ⟨u, pe u⟩) := by
  induction l with
  | nil => rfl
  | cons u rest ih =>
    have h1 : processUid s env u = some ⟨u, pe u⟩ := by
      unfold processUid
      rw [if_neg (by have := hgt u (List.mem_cons_self u rest); omega),
        hp u (List.mem_cons_self u rest)]
      rfl
    simp only [List.filterMap_cons, h1, List.map_cons]
    rw [ih (fun v hv => hgt v (List.mem_cons_of_mem u hv))
      (fun v hv => hp v (List.mem_cons_of_mem u hv))]

/-- Folding `max` over a block of consecutive UIDs starting just above
the seed lands on the block's last element. -/
theorem foldl_max_range (a k : Nat) :
    List.foldl Nat.max a (List.range' (a + 1) k) = a + k := by
  induction k generalizing a with
  | zero => rfl
  | succ n ih =>
    rw [List.range'_succ]
    show List.foldl Nat.max (Nat.max a (a + 1)) (List.range' (a + 1 + 1) n) = a + (n + 1)
    have hmx : Nat.max a (a + 1) = a + 1 := by
      exact Nat.max_eq_right (Nat.le_succ a)
    rw [hmx, ih (a + 1)]
    omega

/-- C4: starting with no persisted state over a mailbox whose highest UID
is `B`, `connect` establishes `start_uid = B` and an initial cursor of
`B`; no dispatched UID is ever `≤ B` (the baseline filter); and a fetch
cycle over arrivals `B+1 … B+k` (server reply in order, all parseable)
dispatches exactly those UIDs in ascending order, persisting the cursor
at `B + k`. -/
theorem baseline_first_run (B k : Nat) (mailbox : List Nat)
    (pf : Nat → Option ParsedEmail) (pe : Nat → ParsedEmail)
    (hB : mailbox.getLast? = some B) (hk : 0 < k)
    (hpf : ∀ u, pf u = some (pe u)) :
    (connect (loadWatcher GmailState.empty) mailbox).start_uid = some B ∧
    (connect (loadWatcher GmailState.empty) mailbox).last_notified_uid = some B ∧
    (∀ env : FetchEnv,
      ∀ u ∈ monitorDispatches (connect (loadWatcher GmailState.empty) mailbox) env,
        B < u) ∧
    monitorDispatches (connect (loadWatcher GmailState.empty) mailbox)
      ⟨List.range' (B + 1) k, pf⟩ = List.range' (B + 1) k ∧
    (get_new_emails (connect (loadWatcher GmailState.empty) mailbox)
      ⟨List.range' (B + 1) k, pf⟩).watcher.stateFile.last_notified_uid =
      some (B + k) := by
  have hw0 : connect (loadWatcher GmailState.empty) mailbox =
      ⟨some B, some B, ⟨some B, none⟩⟩ := by
    unfold connect loadWatcher GmailState.empty
    rw [hB]
    rfl
  rw [hw0]
  have hgt : ∀ u ∈ List.range' (B + 1) k, B < u := by
    intro u hu
    have := List.mem_range'_1.mp hu
    omega
  have hfm : (List.range' (B + 1) k).filterMap
      (processUid B ⟨List.range' (B + 1) k, pf⟩) =
      (List.range' (B + 1) k).map (fun u => ⟨u, pe u⟩) :=
    filterMap_processUid_all B ⟨List.range' (B + 1) k, pf⟩ (List.range' (B + 1) k)
      pe hgt (fun u _ => hpf u)
  refine ⟨rfl, rfl, ?_, ?_, ?_⟩
  · intro env u hu
    exact monitorDispatches_gt_start _ env B rfl u hu
  · unfold monitorDispatches
    rw [get_new_emails_emails rfl rfl, hfm, List.map_map]
    exact List.map_id _
  · obtain ⟨n, rfl⟩ : ∃ n, k = n + 1 := ⟨k - 1, by omega⟩
    rw [get_new_emails_eq_buildResult rfl rfl, hfm, List.range'_succ,
      List.map_cons]
    show some (listMax (B + 1)
      (((List.range' (B + 1 + 1) n).map (fun u => (⟨u, pe u⟩ : EmailData))).map
        EmailData.uid)) = some (B + (n + 1))
    rw [List.map_map]
    have hmap : (List.range' (B + 1 + 1) n).map
        (EmailData.uid ∘ fun u => (⟨u, pe u⟩ : EmailData)) =
        List.range' (B + 1 + 1) n := List.map_id _
    rw [hmap]
    show some (List.foldl Nat.max (B + 1) (List.range' (B + 1 + 1) n)) =
      some (B + (n + 1))
    rw [foldl_max_range (B + 1) n]
    congr 1
    omega

/-- C4, witness: mailbox with 10 pre-existing messages, then arrivals
11, 12, 13. -/
theorem baseline_first_run_witness :
    (connect (loadWatcher GmailState.empty)
      [1, 2, 3, 4, 5, 6, 7, 8, 9, 10]).start_uid = some 10 ∧
    (connect (loadWatcher GmailState.empty)
      [1, 2, 3, 4, 5, 6, 7, 8, 9, 10]).last_notified_uid = some 10 ∧
    (∀ env : FetchEnv,
      ∀ u ∈ monitorDispatches
        (connect (loadWatcher GmailState.empty) [1, 2, 3, 4, 5, 6, 7, 8, 9, 10]) env,
        10 < u) ∧
    monitorDispatches
      (connect (loadWatcher GmailState.empty) [1, 2, 3, 4, 5, 6, 7, 8, 9, 10])
      ⟨List.range' 11 3, fun _ => some sampleEmail⟩ = List.range' 11 3 ∧
    (get_new_emails
      (connect (loadWatcher GmailState.empty) [1, 2, 3, 4, 5, 6, 7, 8, 9, 10])
      ⟨List.range' 11 3, fun _ => some sampleEmail⟩).watcher.stateFile.last_notified_uid =
      some 13 :=
  baseline_first_run 10 3 [1, 2, 3, 4, 5, 6, 7, 8, 9, 10]
    (fun _ => some sampleEmail) (fun _ => sampleEmail) rfl (by decide)
    (fun _ => rfl)

/-- The watcher-state part of one fetch cycle (the only place in
`monitor_loop`'s steady state that writes `last_notified_uid`). -/
def fetchStep (w : Watcher) (env : FetchEnv) : Watcher :=
  (get_new_emails w env).watcher

/-- The server's reply honours the search criterion
`UID {last_notified_uid+1}:*`: every returned UID is strictly above the
cursor the search was issued with. -/
def conformsTo (w : Watcher) (env : FetchEnv) : Bool :=
  match w.last_notified_uid with
  | none => true
  | some c => env.searchResult.all (fun u => decide (c < u))

/-- Every reply of the run honours the search criterion in force when it
was requested. -/
def conformingRun : Watcher → List FetchEnv → Bool
  | _, [] => true
  | w, env :: rest => conformsTo w env && conformingRun (fetchStep w env) rest

/-- The persisted cursor either is absent or agrees with the in-memory
cursor — true after `monitor_loop` loads its state and `connect` runs,
and preserved by every fetch step. -/
def cursorInv (w : Watcher) : Bool :=
  w.stateFile.last_notified_uid == none ||
    w.stateFile.last_notified_uid == w.last_notified_uid

/-- The persisted cursor value before the run and after each fetch
cycle. -/
def storedCursors : Watcher → List FetchEnv → List (Option Nat)
  | w, [] => [w.stateFile.last_notified_uid]
  | w, env :: rest =>
    w.stateFile.last_notified_uid :: storedCursors (fetchStep w env) rest

/-- Order on persisted cursor snapshots: any value present in the first
is at most a value present in the second (an absent cursor is below
everything). -/
def optLE (a b : Option Nat) : Prop :=
  ∀ x, a = some x → ∃ y, b = some y ∧ x ≤ y

theorem optLE_refl (a : Option Nat) : optLE a a :=
  fun x hx => ⟨x, hx, Nat.le_refl x⟩

instance : IsTrans (Option Nat) optLE :=
  ⟨fun _ _ _ hab hbc x hx =>
    let ⟨y, hy, hxy⟩ := hab x hx
    let ⟨z, hz, hyz⟩ := hbc y hy
    ⟨z, hz, Nat.le_trans hxy hyz⟩⟩

/-- A fold of `max` over values all above `c`, seeded above `c`, stays
above `c`. -/
theorem lt_listMax (c a : Nat) (l : List Nat) (ha : c < a)
    (hl : ∀ x ∈ l, c < x) : c < listMax a l := by
  induction l generalizing a with
  | nil => exact ha
  | cons x xs ih =>
    show c < List.foldl Nat.max (Nat.max a x) xs
    exact ih (Nat.max a x) (Nat.lt_of_lt_of_le ha (Nat.le_max_left a x))
      (fun y hy => hl y (List.mem_cons_of_mem x hy))

/-- One conforming fetch step preserves the cursor invariant and never
moves the persisted cursor down. -/
theorem fetchStep_cursor_mono (w : Watcher) (env : FetchEnv)
    (hinv : cursorInv w = true) (hconf : conformsTo w env = true) :
    cursorInv (fetchStep w env) = true ∧
    optLE w.stateFile.last_notified_uid
      (fetchStep w env).stateFile.last_notified_uid := by
  cases hl : w.last_notified_uid with
  | none =>
    have hid : fetchStep w env = w := by
      unfold fetchStep get_new_emails
      rw [hl]
    rw [hid]
    exact ⟨hinv, optLE_refl _⟩
  | some c =>
    cases hs : w.start_uid with
    | none =>
      have hid : fetchStep w env = w := by
        unfold fetchStep get_new_emails
        rw [hl, hs]
      rw [hid]
      exact ⟨hinv, optLE_refl _⟩
    | some s =>
      have hstep : fetchStep w env =
          (buildResult w (env.searchResult.filterMap (processUid s env))).watcher := by
        unfold fetchStep
        rw [get_new_emails_eq_buildResult hl hs]
      cases hfm : env.searchResult.filterMap (processUid s env) with
      | nil =>
        rw [hstep, hfm]
        exact ⟨hinv, optLE_refl _⟩
      | cons e rest =>
        have hgt : ∀ u ∈ env.searchResult, c < u := by
          unfold conformsTo at hconf
          rw [hl] at hconf
          intro u hu
          exact of_decide_eq_true (List.all_eq_true.mp hconf u hu)
        have hmem : ∀ x ∈ e :: rest, c < x.uid := by
          intro x hx
          rw [← hfm] at hx
          rcases List.mem_filterMap.mp hx with ⟨v, hv, hpv⟩
          obtain ⟨h1, _⟩ := processUid_eq_some hpv
          rw [h1]
          exact hgt v hv
        have hlatest : c < listMax e.uid (rest.map EmailData.uid) := by
          refine lt_listMax c e.uid _ (hmem e (List.mem_cons_self e rest)) ?_
          intro y hy
          rcases List.mem_map.mp hy with ⟨x, hx, rfl⟩
          exact hmem x (List.mem_cons_of_mem e hx)
        rw [hstep, hfm]
        constructor
        · show ((some (listMax e.uid (rest.map EmailData.uid)) : Option Nat) == none ||
            (some (listMax e.uid (rest.map EmailData.uid)) : Option Nat) ==
              some (listMax e.uid (rest.map EmailData.uid))) = true
          simp
        · intro x hx
          refine ⟨listMax e.uid (rest.map EmailData.uid), rfl, ?_⟩
          have hinv2 : w.stateFile.last_notified_uid = none ∨
              w.stateFile.last_notified_uid = w.last_notified_uid := by
            have h0 := hinv
            unfold cursorInv at h0
            simpa using h0
          rcases hinv2 with h | h
          · rw [h] at hx
            exact absurd hx (by simp)
          · rw [h, hl] at hx
            have : x = c := by
              injection hx with hx'
              exact hx'.symm
            omega

/-- The first persisted-cursor snapshot of a run. -/
theorem storedCursors_head (w : Watcher) (envs : List FetchEnv) :
    (storedCursors w envs).head? = some w.stateFile.last_notified_uid := by
  cases envs <;> rfl

/-- Consecutive persisted-cursor snapshots of a conforming run never
decrease. -/
theorem cursor_chain (w : Watcher) (envs : List FetchEnv)
    (hinv : cursorInv w = true) (hconf : conformingRun w envs = true) :
    List.Chain' optLE (storedCursors w envs) := by
  induction envs generalizing w with
  | nil => exact List.chain'_singleton _
  | cons env rest ih =>
    unfold conformingRun at hconf
    have hsplit : conformsTo w env = true ∧
        conformingRun (fetchStep w env) rest = true := by
      simpa using hconf
    obtain ⟨h1, h2⟩ := hsplit
    obtain ⟨hinv', hle⟩ := fetchStep_cursor_mono w env hinv h1
    show List.Chain' optLE
      (w.stateFile.last_notified_uid :: storedCursors (fetchStep w env) rest)
    rw [List.chain'_cons']
    refine ⟨?_, ih (fetchStep w env) hinv' h2⟩
    intro y hy
    rw [storedCursors_head] at hy
    have : y = (fetchStep w env).stateFile.last_notified_uid := by
      injection hy with hy'
      exact hy'.symm
    rw [this]
    exact hle

/-- C9: across any sequence of fetch cycles whose server replies honour
the search criterion `UID cursor+1:*`, the persisted cursor never
decreases: every later snapshot of `last_notified_uid` in the state file
dominates every earlier one. -/
theorem cursor_monotone (w : Watcher) (envs : List FetchEnv)
    (hinv : cursorInv w = true) (hconf : conformingRun w envs = true) :
    List.Pairwise optLE (storedCursors w envs) :=
  List.chain'_iff_pairwise.mp (cursor_chain w envs hinv hconf)

/-- Two conforming fetch cycles: UID 13 arrives, then UIDs 14 and 15. -/
def runEnvA : FetchEnv := ⟨[13], fun _ => some sampleEmail⟩

/-- Second cycle of the concrete run. -/
def runEnvB : FetchEnv := ⟨[14, 15], fun _ => some sampleEmail⟩

/-- Initial watcher of the concrete run: baseline 10, cursor 12. -/
def runStart : Watcher := ⟨some 10, some 12, ⟨some 10, some 12⟩⟩

/-- C9, witness: the concrete two-cycle run above. -/
theorem cursor_monotone_witness :
    List.Pairwise optLE (storedCursors runStart [runEnvA, runEnvB]) :=
  cursor_monotone runStart [runEnvA, runEnvB] rfl rfl
